import Mathlib

/-!
Shallow embedding of `src/lib/bindings/base.js` from alaq/node-serialport:
the abstract `BaseBinding` class for serial-port drivers.

JavaScript values are modelled by `JsVal`, with numbers as rationals
(`Rat`), which covers the negative and fractional arguments the
validation code accepts. A synchronous `throw` is modelled as
`Outcome.thrown`, a rejected promise as `Outcome.rejected`, and a
resolving promise as `Outcome.resolved`. Methods of `BaseBinding`
contain no assignment to `this` and no write into their buffer
argument, so each method is embedded as a pure function returning its
outcome together with the (unchanged) binding state.

The comparison `buffer.length < offset + length` from `read` is
implemented on the raw numerator/denominator fields (`capLt`) so that it
evaluates by kernel reduction; `capLt_iff` proves it equal to the
rational-order statement. Likewise number truthiness is implemented on
the numerator; `jsTruthy_numV` relates it to `q ≠ 0`.
-/

/-- A JavaScript value, as far as the binding code inspects one. -/
inductive JsVal : Type where
  | undefV : JsVal
  | nullv : JsVal
  | boolV : Bool → JsVal
  | numV : Rat → JsVal
  | strV : String → JsVal
  | funcV : Nat → JsVal
  | bufV : List Nat → JsVal
  | objV : List (String × JsVal) → JsVal

/-- A JavaScript error: constructor name (`TypeError` or `Error`) and message. -/
structure JsError where
  name : String
  msg : String
deriving DecidableEq, Repr

/-- The observable outcome of calling a binding method: a synchronous
throw, a rejected promise, or a resolved promise. -/
inductive Outcome (α : Type) : Type where
  | thrown : JsError → Outcome α
  | rejected : JsError → Outcome α
  | resolved : α → Outcome α
deriving DecidableEq, Repr

/-- Embeds `typeof v` in JavaScript (`typeof null` is `"object"`). -/
def jsTypeof : JsVal → String
  | .undefV => "undefined"
  | .nullv => "object"
  | .boolV _ => "boolean"
  | .numV _ => "number"
  | .strV _ => "string"
  | .funcV _ => "function"
  | .bufV _ => "object"
  | .objV _ => "object"

/-- JavaScript truthiness of a value (a number is truthy iff nonzero,
tested on the reduced numerator). -/
def jsTruthy : JsVal → Bool
  | .undefV => false
  | .nullv => false
  | .boolV b => b
  | .numV q => decide (q.num ≠ 0)
  | .strV s => decide (s ≠ "")
  | .funcV _ => true
  | .bufV _ => true
  | .objV _ => true

/-- Embeds `Buffer.isBuffer(v)`. -/
def isBuffer : JsVal → Bool
  | .bufV _ => true
  | _ => false

/-- Whether `typeof v` is `"number"`. -/
def isNum : JsVal → Bool
  | .numV _ => true
  | _ => false

/-- Whether the value is an actual object (including `Buffer`s), as
opposed to `null`, primitives and functions. -/
def objectShaped : JsVal → Bool
  | .objV _ => true
  | .bufV _ => true
  | _ => false

/-- Property access `v.f`: throws a `TypeError` on `null`/`undefined`,
returns the field (or `undefined`) otherwise. Primitive values box and
yield `undefined` for the fields this code reads. -/
def getField : JsVal → String → Except JsError JsVal
  | .undefV, f => .error ⟨"TypeError", "Cannot read property " ++ f ++ " of undefined"⟩
  | .nullv, f => .error ⟨"TypeError", "Cannot read property " ++ f ++ " of null"⟩
  | .objV fs, f => .ok ((fs.lookup f).getD .undefV)
  | _, _ => .ok .undefV

/-- The capacity test `n < a + b` on rationals, computed by
cross-multiplication on raw numerators/denominators so it reduces in the
kernel. `capLt_iff` certifies it against the rational order. -/
def capLt (n : Nat) (a b : Rat) : Bool :=
  decide ((n : Int) * ((a.den : Int) * (b.den : Int)) <
    a.num * (b.den : Int) + b.num * (a.den : Int))

/-- State of a `BaseBinding` instance: the `isOpen` property. The base
class itself never assigns it, so after base construction it is
`undefined`; subclasses are documented to keep a boolean there. -/
structure BaseBinding where
  isOpen : JsVal

namespace BaseBinding

/-- The `BaseBinding` constructor: validates the options object and its
`disconnect` field, throwing a `TypeError` on violation. On success the
instance has no `isOpen` property yet (`undefined`). -/
def construct (opt : JsVal) : Except JsError BaseBinding :=
  if jsTypeof opt ≠ "object" then
    .error ⟨"TypeError", "\"options\" is not an object"⟩
  else
    match getField opt "disconnect" with
    | .error e => .error e
    | .ok d =>
      if jsTypeof d ≠ "function" then
        .error ⟨"TypeError", "\"options.disconnect\" is not a function"⟩
      else
        .ok ⟨.undefV⟩

/-- Embeds `static list()`: the base class placeholder resolves (with
`undefined`); it never throws and never rejects. -/
def list : Outcome JsVal := .resolved .undefV

/-- Embeds `open(path, options)` (named `openPort`: `open` is reserved in Lean). -/
def openPort (self : BaseBinding) (path options : JsVal) :
    Outcome Unit × BaseBinding :=
  if jsTruthy path = false then
    (.thrown ⟨"TypeError", "\"path\" is not a valid port"⟩, self)
  else if jsTypeof options ≠ "object" then
    (.thrown ⟨"TypeError", "\"options\" is not an object"⟩, self)
  else if jsTruthy self.isOpen then
    (.rejected ⟨"Error", "Already open"⟩, self)
  else
    (.resolved (), self)

/-- Embeds `close()`. -/
def close (self : BaseBinding) : Outcome Unit × BaseBinding :=
  if jsTruthy self.isOpen = false then
    (.rejected ⟨"Error", "Port is not open"⟩, self)
  else
    (.resolved (), self)

/-- Embeds `read(buffer, offset, length)`. The third component of the result is
the buffer contents after the call: the base method performs no write
into the buffer. -/
def read (self : BaseBinding) (buffer offset length : JsVal) :
    Outcome Unit × BaseBinding × JsVal :=
  if isBuffer buffer = false then
    (.thrown ⟨"TypeError", "\"buffer\" is not a Buffer"⟩, self, buffer)
  else if isNum offset = false then
    (.thrown ⟨"TypeError", "\"offset\" is not an integer"⟩, self, buffer)
  else if isNum length = false then
    (.thrown ⟨"TypeError", "\"length\" is not an integer"⟩, self, buffer)
  else
    match buffer, offset, length with
    | .bufV bytes, .numV off, .numV len =>
      if capLt bytes.length off len then
        (.rejected ⟨"Error", "buffer is too small"⟩, self, buffer)
      else if jsTruthy self.isOpen = false then
        (.rejected ⟨"Error", "Port is not open"⟩, self, buffer)
      else
        (.resolved (), self, buffer)
    | _, _, _ => (.resolved (), self, buffer)

/-- Embeds `write(buffer)`. -/
def write (self : BaseBinding) (buffer : JsVal) : Outcome Unit × BaseBinding :=
  if isBuffer buffer = false then
    (.thrown ⟨"TypeError", "\"buffer\" is not a Buffer"⟩, self)
  else if jsTruthy self.isOpen = false then
    (.rejected ⟨"Error", "Port is not open"⟩, self)
  else
    (.resolved (), self)

/-- Embeds `update(options)`: validates `options` and `options.baudRate`. -/
def update (self : BaseBinding) (options : JsVal) : Outcome Unit × BaseBinding :=
  if jsTypeof options ≠ "object" then
    (.thrown ⟨"TypeError", "\"options\" is not an object"⟩, self)
  else
    match getField options "baudRate" with
    | .error e => (.thrown e, self)
    | .ok b =>
      if isNum b = false then
        (.thrown ⟨"TypeError", "\"options.baudRate\" is not a number"⟩, self)
      else if jsTruthy self.isOpen = false then
        (.rejected ⟨"Error", "Port is not open"⟩, self)
      else
        (.resolved (), self)

/-- Embeds `set(options)`. -/
def set (self : BaseBinding) (options : JsVal) : Outcome Unit × BaseBinding :=
  if jsTypeof options ≠ "object" then
    (.thrown ⟨"TypeError", "\"options\" is not an object"⟩, self)
  else if jsTruthy self.isOpen = false then
    (.rejected ⟨"Error", "Port is not open"⟩, self)
  else
    (.resolved (), self)

/-- Embeds `get()`. -/
def get (self : BaseBinding) : Outcome Unit × BaseBinding :=
  if jsTruthy self.isOpen = false then
    (.rejected ⟨"Error", "Port is not open"⟩, self)
  else
    (.resolved (), self)

/-- Embeds `flush()`. -/
def flush (self : BaseBinding) : Outcome Unit × BaseBinding :=
  if jsTruthy self.isOpen = false then
    (.rejected ⟨"Error", "Port is not open"⟩, self)
  else
    (.resolved (), self)

/-- Embeds `drain()`. -/
def drain (self : BaseBinding) : Outcome Unit × BaseBinding :=
  if jsTruthy self.isOpen = false then
    (.rejected ⟨"Error", "Port is not open"⟩, self)
  else
    (.resolved (), self)

end BaseBinding

/-- Whether an outcome is a synchronous throw. -/
def Outcome.isThrown {α : Type} : Outcome α → Bool
  | .thrown _ => true
  | _ => false

/-- Whether an outcome is a rejected promise. -/
def Outcome.isRejected {α : Type} : Outcome α → Bool
  | .rejected _ => true
  | _ => false

/-- Whether the `disconnect` field of a configuration is an invocable
function (reading the field as the constructor does). -/
def disconnectInvocable (opt : JsVal) : Bool :=
  match getField opt "disconnect" with
  | .ok d => jsTypeof d == "function"
  | .error _ => false

/-- The rational -5/2, a negative non-integer JS number. -/
def qneg52 : Rat := ⟨-5, 2, by decide, by norm_num⟩

/-- Modelled from the spec: the concrete platform drivers are not under
`src/`; per the spec they implement the contract's state transitions on
top of the base-class checks of `src/lib/bindings/base.js`: a binding is
constructed closed, a successful `open` sets `isOpen` to `true`, and a
successful `close` sets it back to `false`. -/
structure SpecBinding where
  isOpen : Bool

/-- The base-class view of a concrete binding's state. -/
def SpecBinding.toBase (self : SpecBinding) : BaseBinding := ⟨.boolV self.isOpen⟩

/-- Modelled from the spec: concrete construction runs the base-class
validation and starts closed. -/
def SpecBinding.construct (opt : JsVal) : Except JsError SpecBinding :=
  match BaseBinding.construct opt with
  | .error e => .error e
  | .ok _ => .ok ⟨false⟩

/-- Modelled from the spec: concrete `open` runs the base-class checks and,
on success, sets `isOpen` to `true`. -/
def SpecBinding.openPort (self : SpecBinding) (path options : JsVal) :
    Outcome Unit × SpecBinding :=
  match BaseBinding.openPort self.toBase path options with
  | (.resolved _, _) => (.resolved (), ⟨true⟩)
  | (o, _) => (o, self)

/-- Modelled from the spec: concrete `close` runs the base-class check and,
on success, sets `isOpen` to `false`. -/
def SpecBinding.close (self : SpecBinding) : Outcome Unit × SpecBinding :=
  match BaseBinding.close self.toBase with
  | (.resolved _, _) => (.resolved (), ⟨false⟩)
  | (o, _) => (o, self)

/-- A discoverable port, as reported by `list`. -/
structure PortInfo where
  comName : String
deriving DecidableEq, Repr

/-- Modelled from the spec: the platform enumeration behind `list()` is
not under `src/` (the base class holds only a resolving placeholder).
Per the spec, enumeration resolves with the currently available ports —
an empty sequence when none are found — and rejects only on a genuine
enumeration failure. -/
def listPorts (available : List PortInfo) (failure : Option JsError) :
    Outcome (List PortInfo) :=
  match failure with
  | some e => .rejected e
  | none => .resolved available

/-- Argument validity for `open`: truthy path and object-typed options
(exactly the conditions the code tests synchronously). -/
def openArgsOK (path options : JsVal) : Bool :=
  jsTruthy path && decide (jsTypeof options = "object")

/-- Argument validity for `read`: a `Buffer` and numeric offset/length. -/
def readArgsOK (buffer offset length : JsVal) : Bool :=
  isBuffer buffer && isNum offset && isNum length

/-- Argument validity for `write`: a `Buffer`. -/
def writeArgsOK (buffer : JsVal) : Bool :=
  isBuffer buffer

/-- Argument validity for `update`: object-typed options whose
`baudRate` field can be read and is numeric. -/
def updateArgsOK (options : JsVal) : Bool :=
  decide (jsTypeof options = "object") &&
    (match getField options "baudRate" with
     | .ok d => isNum d
     | .error _ => false)

/-- Argument validity for `set`: object-typed options. -/
def setArgsOK (options : JsVal) : Bool :=
  decide (jsTypeof options = "object")

/-- The propagation policy of the error design: a synchronous throw is
always a `TypeError` (a shape/type violation), and a rejection is always
one of the state-level errors (`Port is not open`, `Already open`,
`buffer is too small`). -/
def channelsOK {α : Type} : Outcome α → Bool
  | .thrown e => e.name == "TypeError"
  | .rejected e =>
      (e == ⟨"Error", "Port is not open"⟩) || (e == ⟨"Error", "Already open"⟩) ||
        (e == ⟨"Error", "buffer is too small"⟩)
  | .resolved _ => true

/-- A number is truthy exactly when it is nonzero. -/
theorem jsTruthy_numV (q : Rat) : jsTruthy (.numV q) = true ↔ q ≠ 0 := by
  simp [jsTruthy, Rat.num_ne_zero]

/-- Lemma: `capLt` agrees with the rational-order comparison `n < a + b`. -/
theorem capLt_iff (n : Nat) (a b : Rat) : capLt n a b = true ↔ (n : Rat) < a + b := by
  rw [capLt, decide_eq_true_iff]
  have had : ((a.den : Rat)) ≠ 0 := by exact_mod_cast a.den_nz
  have hbd : ((b.den : Rat)) ≠ 0 := by exact_mod_cast b.den_nz
  have ha : (a.num : Rat) = a * a.den := by
    rw [show ((a.num : Rat)) = a.num / a.den * a.den by field_simp, Rat.num_div_den]
  have hb : (b.num : Rat) = b * b.den := by
    rw [show ((b.num : Rat)) = b.num / b.den * b.den by field_simp, Rat.num_div_den]
  have hpos : (0 : Rat) < (a.den : Rat) * (b.den : Rat) := by
    have := a.pos
    have := b.pos
    positivity
  rw [show ((n : Rat) < a + b) ↔ (n : Rat) * ((a.den : Rat) * (b.den : Rat)) <
      (a + b) * ((a.den : Rat) * (b.den : Rat)) from (mul_lt_mul_right hpos).symm]
  have hexp : (a + b) * ((a.den : Rat) * (b.den : Rat)) =
      (a.num : Rat) * (b.den : Rat) + (b.num : Rat) * (a.den : Rat) := by
    rw [ha, hb]; ring
  rw [hexp]
  exact_mod_cast Iff.rfl

/-- Lemma: `read` on a buffer whose capacity bound is violated rejects with
`buffer is too small`, regardless of the open state, and changes
neither the binding state nor the buffer. -/
theorem read_capLt_rejects (st : BaseBinding) (bytes : List Nat) (off len : Rat)
    (hc : capLt bytes.length off len = true) :
    BaseBinding.read st (.bufV bytes) (.numV off) (.numV len) =
      (.rejected ⟨"Error", "buffer is too small"⟩, st, .bufV bytes) := by
  simp [BaseBinding.read, isBuffer, isNum, hc]

/-- Lemma: `read` with a `Buffer` and numeric offset and length never throws. -/
theorem read_numeric_not_thrown (st : BaseBinding) (bytes : List Nat) (off len : Rat) :
    (BaseBinding.read st (.bufV bytes) (.numV off) (.numV len)).1.isThrown = false := by
  rw [BaseBinding.read]
  rw [if_neg (by simp [isBuffer]), if_neg (by simp [isNum]), if_neg (by simp [isNum])]
  split
  · rfl
  · split <;> rfl

/-- Lemma: `open` throws exactly when its arguments fail the synchronous checks. -/
theorem openPort_thrown (st : BaseBinding) (path options : JsVal) :
    (BaseBinding.openPort st path options).1.isThrown = !openArgsOK path options := by
  unfold BaseBinding.openPort openArgsOK
  by_cases h1 : jsTruthy path = false
  · simp [h1, Outcome.isThrown]
  · have h1' : jsTruthy path = true := by revert h1; cases jsTruthy path <;> simp
    by_cases h2 : jsTypeof options = "object"
    · simp only [h1', h2, ne_eq, Bool.true_eq_false, if_false, not_true_eq_false,
        decide_True, Bool.and_true, Bool.not_true]
      split <;> rfl
    · simp [h1', h2, Outcome.isThrown]

/-- Lemma: `close` never throws. -/
theorem close_not_thrown (st : BaseBinding) :
    (BaseBinding.close st).1.isThrown = false := by
  unfold BaseBinding.close
  split <;> rfl

/-- Lemma: `read` throws exactly when its arguments fail the synchronous checks. -/
theorem read_thrown (st : BaseBinding) (buffer offset length : JsVal) :
    (BaseBinding.read st buffer offset length).1.isThrown =
      !readArgsOK buffer offset length := by
  by_cases hb : isBuffer buffer = false
  · simp [BaseBinding.read, readArgsOK, hb, Outcome.isThrown]
  · have hb' : isBuffer buffer = true := by revert hb; cases isBuffer buffer <;> simp
    by_cases ho : isNum offset = false
    · simp [BaseBinding.read, readArgsOK, hb', ho, Outcome.isThrown]
    · have ho' : isNum offset = true := by revert ho; cases isNum offset <;> simp
      by_cases hl : isNum length = false
      · simp [BaseBinding.read, readArgsOK, hb', ho', hl, Outcome.isThrown]
      · have hl' : isNum length = true := by revert hl; cases isNum length <;> simp
        rcases buffer with _ | _ | b | q | s | n | bytes | fs <;> simp [isBuffer] at hb'
        rcases offset with _ | _ | b2 | q2 | s2 | n2 | bytes2 | fs2 <;> simp [isNum] at ho'
        rcases length with _ | _ | b3 | q3 | s3 | n3 | bytes3 | fs3 <;> simp [isNum] at hl'
        simpa [readArgsOK, isBuffer, isNum] using read_numeric_not_thrown st bytes q2 q3

/-- Lemma: `write` throws exactly when its argument fails the synchronous check. -/
theorem write_thrown (st : BaseBinding) (buffer : JsVal) :
    (BaseBinding.write st buffer).1.isThrown = !writeArgsOK buffer := by
  unfold BaseBinding.write writeArgsOK
  by_cases hb : isBuffer buffer = false
  · simp [hb, Outcome.isThrown]
  · have hb' : isBuffer buffer = true := by revert hb; cases isBuffer buffer <;> simp
    simp only [hb', Bool.true_eq_false, if_false, Bool.not_true]
    split <;> rfl

/-- Lemma: `update` throws exactly when its options fail the synchronous checks
(including the property read on `null`). -/
theorem update_thrown (st : BaseBinding) (options : JsVal) :
    (BaseBinding.update st options).1.isThrown = !updateArgsOK options := by
  cases options
  case objV fs =>
    by_cases hn : isNum ((fs.lookup "baudRate").getD JsVal.undefV) = false
    · simp [BaseBinding.update, updateArgsOK, jsTypeof, getField, hn, Outcome.isThrown]
    · have hn' : isNum ((fs.lookup "baudRate").getD JsVal.undefV) = true := by
        revert hn; cases isNum ((fs.lookup "baudRate").getD JsVal.undefV) <;> simp
      simp only [BaseBinding.update, updateArgsOK, jsTypeof, getField, hn', ne_eq,
        not_true_eq_false, if_false, decide_True, Bool.true_eq_false, Bool.true_and,
        Bool.not_true]
      split <;> rfl
  all_goals
    simp [BaseBinding.update, updateArgsOK, jsTypeof, getField, isNum, Outcome.isThrown]

/-- Lemma: `set` throws exactly when its options fail the synchronous check. -/
theorem set_thrown (st : BaseBinding) (options : JsVal) :
    (BaseBinding.set st options).1.isThrown = !setArgsOK options := by
  unfold BaseBinding.set setArgsOK
  by_cases h : jsTypeof options = "object"
  · simp only [h, ne_eq, not_true_eq_false, if_false, decide_True, Bool.not_true]
    split <;> rfl
  · simp [h, Outcome.isThrown]

/-- Lemma: `get` never throws. -/
theorem get_not_thrown (st : BaseBinding) :
    (BaseBinding.get st).1.isThrown = false := by
  unfold BaseBinding.get
  split <;> rfl

/-- Lemma: `flush` never throws. -/
theorem flush_not_thrown (st : BaseBinding) :
    (BaseBinding.flush st).1.isThrown = false := by
  unfold BaseBinding.flush
  split <;> rfl

/-- Lemma: `drain` never throws. -/
theorem drain_not_thrown (st : BaseBinding) :
    (BaseBinding.drain st).1.isThrown = false := by
  unfold BaseBinding.drain
  split <;> rfl

/-- Every outcome of `open` respects the propagation policy. -/
theorem channelsOK_openPort (st : BaseBinding) (path options : JsVal) :
    channelsOK (BaseBinding.openPort st path options).1 = true := by
  unfold BaseBinding.openPort
  repeat' split
  all_goals rfl

/-- Every outcome of `close` respects the propagation policy. -/
theorem channelsOK_close (st : BaseBinding) :
    channelsOK (BaseBinding.close st).1 = true := by
  unfold BaseBinding.close
  split <;> rfl

/-- Every outcome of `read` respects the propagation policy. -/
theorem channelsOK_read (st : BaseBinding) (buffer offset length : JsVal) :
    channelsOK (BaseBinding.read st buffer offset length).1 = true := by
  unfold BaseBinding.read
  repeat' split
  all_goals rfl

/-- Every outcome of `write` respects the propagation policy. -/
theorem channelsOK_write (st : BaseBinding) (buffer : JsVal) :
    channelsOK (BaseBinding.write st buffer).1 = true := by
  unfold BaseBinding.write
  repeat' split
  all_goals rfl

/-- Every outcome of `update` respects the propagation policy: the only
throws are `TypeError`s, including the property read failing on `null`. -/
theorem channelsOK_update (st : BaseBinding) (options : JsVal) :
    channelsOK (BaseBinding.update st options).1 = true := by
  cases options <;>
    (simp only [BaseBinding.update, getField]
     repeat' split
     all_goals rfl)

/-- Every outcome of `set` respects the propagation policy. -/
theorem channelsOK_set (st : BaseBinding) (options : JsVal) :
    channelsOK (BaseBinding.set st options).1 = true := by
  unfold BaseBinding.set
  repeat' split
  all_goals rfl

/-- Every outcome of `get` respects the propagation policy. -/
theorem channelsOK_get (st : BaseBinding) :
    channelsOK (BaseBinding.get st).1 = true := by
  unfold BaseBinding.get
  split <;> rfl

/-- Every outcome of `flush` respects the propagation policy. -/
theorem channelsOK_flush (st : BaseBinding) :
    channelsOK (BaseBinding.flush st).1 = true := by
  unfold BaseBinding.flush
  split <;> rfl

/-- Every outcome of `drain` respects the propagation policy. -/
theorem channelsOK_drain (st : BaseBinding) :
    channelsOK (BaseBinding.drain st).1 = true := by
  unfold BaseBinding.drain
  split <;> rfl

/-- C1: the claim (every I/O operation invoked with type-valid arguments
on a closed binding rejects with `Port is not open`) fails for `read`:
on a closed binding, a type-valid `read` whose requested range exceeds
the buffer rejects with `buffer is too small` instead. -/
theorem C1_counterexample :
    jsTruthy (⟨.boolV false⟩ : BaseBinding).isOpen = false ∧
    (BaseBinding.read ⟨.boolV false⟩ (.bufV [0, 0, 0, 0]) (.numV 0) (.numV 100)).1 =
      .rejected ⟨"Error", "buffer is too small"⟩ ∧
    (⟨"Error", "buffer is too small"⟩ : JsError) ≠ ⟨"Error", "Port is not open"⟩ :=
  ⟨rfl, rfl, by decide⟩

/-- C1 (amended): on a binding whose `isOpen` is falsy, every I/O
operation with type-valid arguments rejects with `Port is not open` and
leaves the binding state (and, for `read`, the buffer) unchanged —
except that `read` additionally requires the capacity bound
`¬ (buffer.length < offset + length)`; when that bound is violated it
rejects with `buffer is too small` first (see the counterexample). -/
theorem C1_closed_rejects_not_open (st : BaseBinding)
    (hclosed : jsTruthy st.isOpen = false) :
    BaseBinding.close st = (.rejected ⟨"Error", "Port is not open"⟩, st) ∧
    (∀ bytes : List Nat, BaseBinding.write st (.bufV bytes) =
      (.rejected ⟨"Error", "Port is not open"⟩, st)) ∧
    (∀ (fs : List (String × JsVal)) (q : Rat), fs.lookup "baudRate" = some (.numV q) →
      BaseBinding.update st (.objV fs) = (.rejected ⟨"Error", "Port is not open"⟩, st)) ∧
    (∀ options : JsVal, jsTypeof options = "object" →
      BaseBinding.set st options = (.rejected ⟨"Error", "Port is not open"⟩, st)) ∧
    BaseBinding.get st = (.rejected ⟨"Error", "Port is not open"⟩, st) ∧
    BaseBinding.flush st = (.rejected ⟨"Error", "Port is not open"⟩, st) ∧
    BaseBinding.drain st = (.rejected ⟨"Error", "Port is not open"⟩, st) ∧
    (∀ (bytes : List Nat) (off len : Rat), ¬ ((bytes.length : Rat) < off + len) →
      BaseBinding.read st (.bufV bytes) (.numV off) (.numV len) =
        (.rejected ⟨"Error", "Port is not open"⟩, st, .bufV bytes)) := by
  refine ⟨?_, ?_, ?_, ?_, ?_, ?_, ?_, ?_⟩
  · simp [BaseBinding.close, hclosed]
  · intro bytes
    simp [BaseBinding.write, isBuffer, hclosed]
  · intro fs q hq
    simp [BaseBinding.update, jsTypeof, getField, hq, isNum, hclosed]
  · intro options hopt
    simp [BaseBinding.set, hopt, hclosed]
  · simp [BaseBinding.get, hclosed]
  · simp [BaseBinding.flush, hclosed]
  · simp [BaseBinding.drain, hclosed]
  · intro bytes off len hcap
    have hc : capLt bytes.length off len = false :=
      Bool.eq_false_iff.mpr fun h => hcap ((capLt_iff bytes.length off len).mp h)
    simp [BaseBinding.read, isBuffer, isNum, hc, hclosed]

/-- C1 witness for the amended statement: a concrete closed binding with
`close` and an in-bounds `read`. -/
theorem C1_closed_rejects_not_open_witness :
    jsTruthy (⟨.boolV false⟩ : BaseBinding).isOpen = false ∧
    BaseBinding.close ⟨.boolV false⟩ =
      (.rejected ⟨"Error", "Port is not open"⟩, ⟨.boolV false⟩) ∧
    ¬ ((([0, 0, 0, 0] : List Nat).length : Rat) < 0 + 2) ∧
    BaseBinding.read ⟨.boolV false⟩ (.bufV [0, 0, 0, 0]) (.numV 0) (.numV 2) =
      (.rejected ⟨"Error", "Port is not open"⟩, ⟨.boolV false⟩, .bufV [0, 0, 0, 0]) := by
  have h := C1_closed_rejects_not_open ⟨.boolV false⟩ rfl
  have hcap : ¬ ((([0, 0, 0, 0] : List Nat).length : Rat) < 0 + 2) := fun hlt =>
    absurd ((capLt_iff ([0, 0, 0, 0] : List Nat).length 0 2).mpr hlt) (by decide)
  exact ⟨rfl, h.1, hcap, h.2.2.2.2.2.2.2 [0, 0, 0, 0] 0 2 hcap⟩

/-- C2: the claim states that immediately after construction of a
`BaseBinding` the observable `isOpen` property equals `false`. It does
not: the base constructor never assigns `isOpen`, so after construction
of `BaseBinding` with a valid configuration the property is `undefined`,
which is not the boolean `false`. -/
theorem C2_counterexample :
    BaseBinding.construct (.objV [("disconnect", .funcV 0)]) = .ok ⟨.undefV⟩ ∧
    JsVal.undefV ≠ JsVal.boolV false :=
  ⟨rfl, fun h => JsVal.noConfusion h⟩

/-- C2 (amended): immediately after construction of a `BaseBinding` with
any accepted configuration, the `isOpen` property is `undefined` (never
assigned), which is falsy: the binding observably behaves as closed. -/
theorem C2_construct_isOpen (opt : JsVal) (b : BaseBinding)
    (h : BaseBinding.construct opt = .ok b) :
    b.isOpen = .undefV ∧ jsTruthy b.isOpen = false := by
  unfold BaseBinding.construct at h
  split at h
  · exact Except.noConfusion h
  · split at h
    · exact Except.noConfusion h
    · split at h
      · exact Except.noConfusion h
      · cases h
        exact ⟨rfl, rfl⟩

/-- C2 witness: the amended statement at a concrete valid configuration. -/
theorem C2_construct_isOpen_witness :
    BaseBinding.construct (.objV [("disconnect", .funcV 0)]) = .ok ⟨.undefV⟩ ∧
    ((⟨.undefV⟩ : BaseBinding).isOpen = .undefV ∧
      jsTruthy (⟨.undefV⟩ : BaseBinding).isOpen = false) :=
  ⟨rfl, C2_construct_isOpen (.objV [("disconnect", .funcV 0)]) ⟨.undefV⟩ rfl⟩

/-- C3: lifecycle scenario on a concrete binding. Construction with a
valid `disconnect` yields a closed binding; `open("COM_TEST",
baudRate 9600)` resolves and `isOpen` becomes `true`; a second `open`
rejects with `Already open`; `close()` resolves and `isOpen` becomes
`false`; a second `close()` rejects with `Port is not open`. -/
theorem C3_lifecycle_scenario :
    SpecBinding.construct (.objV [("disconnect", .funcV 0)]) = .ok ⟨false⟩ ∧
    SpecBinding.openPort ⟨false⟩ (.strV "COM_TEST") (.objV [("baudRate", .numV 9600)]) =
      (.resolved (), ⟨true⟩) ∧
    SpecBinding.openPort ⟨true⟩ (.strV "COM_TEST") (.objV [("baudRate", .numV 9600)]) =
      (.rejected ⟨"Error", "Already open"⟩, ⟨true⟩) ∧
    SpecBinding.close ⟨true⟩ = (.resolved (), ⟨false⟩) ∧
    SpecBinding.close ⟨false⟩ = (.rejected ⟨"Error", "Port is not open"⟩, ⟨false⟩) :=
  ⟨rfl, rfl, rfl, rfl, rfl⟩

/-- C4: invoking `open` while `isOpen` is truthy, with a non-empty path
string and object-typed options, rejects with `Already open` and leaves
the binding state unchanged. -/
theorem C4_open_while_open (st : BaseBinding) (s : String) (options : JsVal)
    (hopen : jsTruthy st.isOpen = true) (hs : s ≠ "")
    (hopt : jsTypeof options = "object") :
    BaseBinding.openPort st (.strV s) options =
      (.rejected ⟨"Error", "Already open"⟩, st) := by
  have h1 : jsTruthy (.strV s) = true := by simp [jsTruthy, hs]
  simp [BaseBinding.openPort, h1, hopt, hopen]

/-- C4 witness: a concrete open binding, path and options. -/
theorem C4_open_while_open_witness :
    jsTruthy (⟨.boolV true⟩ : BaseBinding).isOpen = true ∧
    ("COM_TEST" : String) ≠ "" ∧
    jsTypeof (.objV [("baudRate", .numV 9600)]) = "object" ∧
    BaseBinding.openPort ⟨.boolV true⟩ (.strV "COM_TEST")
        (.objV [("baudRate", .numV 9600)]) =
      (.rejected ⟨"Error", "Already open"⟩, ⟨.boolV true⟩) :=
  ⟨rfl, by decide, rfl,
    C4_open_while_open ⟨.boolV true⟩ "COM_TEST" (.objV [("baudRate", .numV 9600)])
      rfl (by decide) rfl⟩

/-- C5: for every binding state, buffer and numeric offset and length
with `offset + length` exceeding the buffer capacity, `read` rejects
with `buffer is too small` and modifies neither the buffer nor the
binding state. -/
theorem C5_read_buffer_too_small (st : BaseBinding) (bytes : List Nat) (off len : Rat)
    (hcap : (bytes.length : Rat) < off + len) :
    BaseBinding.read st (.bufV bytes) (.numV off) (.numV len) =
      (.rejected ⟨"Error", "buffer is too small"⟩, st, .bufV bytes) :=
  read_capLt_rejects st bytes off len ((capLt_iff bytes.length off len).mpr hcap)

/-- C5 witness: a four-byte buffer with a 100-byte request. -/
theorem C5_read_buffer_too_small_witness :
    ((([0, 0, 0, 0] : List Nat).length : Rat) < 0 + 100) ∧
    BaseBinding.read ⟨.boolV true⟩ (.bufV [0, 0, 0, 0]) (.numV 0) (.numV 100) =
      (.rejected ⟨"Error", "buffer is too small"⟩, ⟨.boolV true⟩, .bufV [0, 0, 0, 0]) :=
  ⟨(capLt_iff ([0, 0, 0, 0] : List Nat).length 0 100).mp (by decide),
    C5_read_buffer_too_small ⟨.boolV true⟩ [0, 0, 0, 0] 0 100
      ((capLt_iff ([0, 0, 0, 0] : List Nat).length 0 100).mp (by decide))⟩

/-- C6: construction fails synchronously with a thrown `TypeError`
whenever the configuration is not object-shaped or its `disconnect`
field is not invocable. -/
theorem C6_construct_invalid (opt : JsVal)
    (h : objectShaped opt = false ∨ disconnectInvocable opt = false) :
    ∃ e : JsError, BaseBinding.construct opt = .error e ∧ e.name = "TypeError" := by
  cases opt with
  | undefV => exact ⟨_, rfl, rfl⟩
  | nullv => exact ⟨_, rfl, rfl⟩
  | boolV b => exact ⟨_, rfl, rfl⟩
  | numV q => exact ⟨_, rfl, rfl⟩
  | strV s => exact ⟨_, rfl, rfl⟩
  | funcV n => exact ⟨_, rfl, rfl⟩
  | bufV bytes => exact ⟨_, rfl, rfl⟩
  | objV fs =>
    rcases h with h | h
    · exact absurd h (by simp [objectShaped])
    · refine ⟨⟨"TypeError", "\"options.disconnect\" is not a function"⟩, ?_, rfl⟩
      have hd : jsTypeof ((fs.lookup "disconnect").getD .undefV) ≠ "function" := by
        have h2 := h
        unfold disconnectInvocable getField at h2
        simpa using h2
      unfold BaseBinding.construct
      rw [if_neg (by simp [jsTypeof])]
      simp only [getField]
      rw [if_pos hd]

/-- C6 witness: a well-formed configuration whose `disconnect` is a
string, hence not invocable. -/
theorem C6_construct_invalid_witness :
    (objectShaped (.objV [("disconnect", .strV "nope")]) = false ∨
      disconnectInvocable (.objV [("disconnect", .strV "nope")]) = false) ∧
    ∃ e : JsError,
      BaseBinding.construct (.objV [("disconnect", .strV "nope")]) = .error e ∧
      e.name = "TypeError" :=
  ⟨Or.inr rfl, C6_construct_invalid (.objV [("disconnect", .strV "nope")]) (Or.inr rfl)⟩

/-- C7: for every binding state and all argument values, each operation
throws synchronously exactly on an argument shape/type violation (and
every throw is a `TypeError`), while every promise rejection is one of
the state-level failures (`Port is not open`, `Already open`,
`buffer is too small`): the two error channels are never mixed. -/
theorem C7_error_channel_policy (st : BaseBinding)
    (path options buffer offset length : JsVal) :
    ((BaseBinding.openPort st path options).1.isThrown = !openArgsOK path options) ∧
    channelsOK (BaseBinding.openPort st path options).1 = true ∧
    ((BaseBinding.close st).1.isThrown = false) ∧
    channelsOK (BaseBinding.close st).1 = true ∧
    ((BaseBinding.read st buffer offset length).1.isThrown =
      !readArgsOK buffer offset length) ∧
    channelsOK (BaseBinding.read st buffer offset length).1 = true ∧
    ((BaseBinding.write st buffer).1.isThrown = !writeArgsOK buffer) ∧
    channelsOK (BaseBinding.write st buffer).1 = true ∧
    ((BaseBinding.update st options).1.isThrown = !updateArgsOK options) ∧
    channelsOK (BaseBinding.update st options).1 = true ∧
    ((BaseBinding.set st options).1.isThrown = !setArgsOK options) ∧
    channelsOK (BaseBinding.set st options).1 = true ∧
    ((BaseBinding.get st).1.isThrown = false) ∧
    channelsOK (BaseBinding.get st).1 = true ∧
    ((BaseBinding.flush st).1.isThrown = false) ∧
    channelsOK (BaseBinding.flush st).1 = true ∧
    ((BaseBinding.drain st).1.isThrown = false) ∧
    channelsOK (BaseBinding.drain st).1 = true :=
  ⟨openPort_thrown st path options, channelsOK_openPort st path options,
    close_not_thrown st, channelsOK_close st,
    read_thrown st buffer offset length, channelsOK_read st buffer offset length,
    write_thrown st buffer, channelsOK_write st buffer,
    update_thrown st options, channelsOK_update st options,
    set_thrown st options, channelsOK_set st options,
    get_not_thrown st, channelsOK_get st,
    flush_not_thrown st, channelsOK_flush st,
    drain_not_thrown st, channelsOK_drain st⟩

/-- C8: in the ordinary no-ports case the enumeration does not throw: it
resolves with the (empty) sequence of `PortInfo` values; in general it
resolves with exactly the available ports whenever enumeration itself
does not fail. -/
theorem C8_list_no_ports :
    listPorts [] none = .resolved ([] : List PortInfo) ∧
    (∀ available : List PortInfo, listPorts available none = .resolved available) ∧
    BaseBinding.list = .resolved .undefV :=
  ⟨rfl, fun _ => rfl, rfl⟩

/-- C9: on a closed binding, a `read` whose capacity bound is violated
rejects with `buffer is too small`, not with `Port is not open`: the
capacity check precedes the open-state check. -/
theorem C9_capacity_before_open (st : BaseBinding) (bytes : List Nat) (off len : Rat)
    (hclosed : jsTruthy st.isOpen = false)
    (hcap : (bytes.length : Rat) < off + len) :
    (BaseBinding.read st (.bufV bytes) (.numV off) (.numV len)).1 =
        .rejected ⟨"Error", "buffer is too small"⟩ ∧
      (BaseBinding.read st (.bufV bytes) (.numV off) (.numV len)).1 ≠
        .rejected ⟨"Error", "Port is not open"⟩ := by
  have h := read_capLt_rejects st bytes off len ((capLt_iff bytes.length off len).mpr hcap)
  have hne : (Outcome.rejected (⟨"Error", "buffer is too small"⟩ : JsError) : Outcome Unit) ≠
      .rejected ⟨"Error", "Port is not open"⟩ := by decide
  rw [h]
  exact ⟨rfl, hne⟩

/-- C9 witness: a closed binding and a four-byte buffer with a 100-byte
request. -/
theorem C9_capacity_before_open_witness :
    jsTruthy (⟨.boolV false⟩ : BaseBinding).isOpen = false ∧
    ((([0, 0, 0, 0] : List Nat).length : Rat) < 0 + 100) ∧
    (BaseBinding.read ⟨.boolV false⟩ (.bufV [0, 0, 0, 0]) (.numV 0) (.numV 100)).1 =
        .rejected ⟨"Error", "buffer is too small"⟩ ∧
      (BaseBinding.read ⟨.boolV false⟩ (.bufV [0, 0, 0, 0]) (.numV 0) (.numV 100)).1 ≠
        .rejected ⟨"Error", "Port is not open"⟩ :=
  ⟨rfl, (capLt_iff ([0, 0, 0, 0] : List Nat).length 0 100).mp (by decide),
    C9_capacity_before_open ⟨.boolV false⟩ [0, 0, 0, 0] 0 100 rfl
      ((capLt_iff ([0, 0, 0, 0] : List Nat).length 0 100).mp (by decide))⟩

/-- C10: `read`'s validation of `offset` and `length` is purely a
`typeof` check. With a `Buffer` and numeric offset and length whose sum
stays within the buffer (stated as the code tests it, `¬ (buffer.length
< offset + length)`), `read` never throws — negative or fractional
numbers included; and with a `Buffer`, `read` throws exactly when
`offset` or `length` is not of numeric type. -/
theorem C10_read_numeric_validation (st : BaseBinding) (bytes : List Nat)
    (off len : Rat) (offset length : JsVal)
    (hcap : ¬ ((bytes.length : Rat) < off + len)) :
    (BaseBinding.read st (.bufV bytes) (.numV off) (.numV len)).1.isThrown = false ∧
    (BaseBinding.read st (.bufV bytes) offset length).1.isThrown =
      (!(isNum offset && isNum length)) := by
  refine ⟨read_numeric_not_thrown st bytes off len, ?_⟩
  cases offset <;> cases length <;>
    first
      | simpa using read_numeric_not_thrown st bytes _ _
      | simp [BaseBinding.read, isBuffer, isNum, Outcome.isThrown]

/-- C10 witness: offset -5/2 and length 3 on a four-byte buffer are
accepted; a string offset throws. -/
theorem C10_read_numeric_validation_witness :
    ¬ ((([0, 0, 0, 0] : List Nat).length : Rat) < qneg52 + 3) ∧
    (BaseBinding.read ⟨.boolV false⟩ (.bufV [0, 0, 0, 0]) (.numV qneg52)
      (.numV 3)).1.isThrown = false ∧
    (BaseBinding.read ⟨.boolV false⟩ (.bufV [0, 0, 0, 0]) (.strV "x")
        (.numV 3)).1.isThrown =
      (!(isNum (.strV "x") && isNum (.numV 3))) := by
  have hcap : ¬ ((([0, 0, 0, 0] : List Nat).length : Rat) < qneg52 + 3) := fun hlt =>
    absurd ((capLt_iff ([0, 0, 0, 0] : List Nat).length qneg52 3).mpr hlt) (by decide)
  have happ := C10_read_numeric_validation ⟨.boolV false⟩ [0, 0, 0, 0] qneg52 3
    (.strV "x") (.numV 3) hcap
  exact ⟨hcap, happ.1, happ.2⟩
